import Mathlib

/-!
Gamification & Earnings Aggregation Engine - verification

Shallow embedding of the core of the activity-tracker backend:

* `src/backend/services/gamification_service.py` — XP ledger with cascading
  level-ups (`award_xp`), day-based streaks (`update_streak`), badge
  evaluation (`check_and_award_badges`), and the two counters
  (`increment_activity_count`, `add_to_total_earnings`);
* `src/backend/services/earnings_service.py` — time-windowed earnings totals
  split by verification status (`calculate_earnings_for_user`);
* `src/backend/badge_definitions.py` — the static badge catalog;
* `src/backend/routers/logs.py` — the orchestration of gamification steps on
  log creation (`create_log`) and log approval (`verify_log`).

Modelling conventions: timestamps are integer seconds (Python
`timedelta.days` is floor division by 86400, embedded as `Int.fdiv`);
currency amounts are rationals (exact-real reading of the float
arithmetic); Python `int()` truncation and the `100 * level ** 1.5`
formula are embedded with exact arithmetic (`Nat.sqrt`, `Int.floor`);
a Firestore document that may be absent is an `Option`.
-/

namespace ActivityTracker

/-- Per-user stats document stored in the `user_stats` collection
(field names as in the source dictionaries). -/
structure UserStats where
  level : ℕ
  experiencePoints : ℤ
  totalExperience : ℤ
  currentStreak : ℕ
  longestStreak : ℕ
  lastActivityDate : Option ℤ
  totalActivitiesLogged : ℕ
  totalEarnings : ℚ
  badgesEarned : ℕ
deriving DecidableEq, Repr

/-- Embeds `GamificationService.calculate_xp_to_next_level`: the source computes
`int(100 * (current_level ** 1.5))`; under exact real arithmetic this is
`⌊100 * level ^ 1.5⌋ = ⌊√(10000 * level ^ 3)⌋ = Nat.sqrt (10000 * level ^ 3)`
(the value is non-negative, so `int` truncation is the floor). -/
def calculate_xp_to_next_level (current_level : ℕ) : ℕ :=
  Nat.sqrt (10000 * current_level ^ 3)

/-- Embeds `GamificationService.calculate_xp_for_earnings`, `int(amount * 10)`.
Python `int()` truncates toward zero, which is the floor for non-negative
values and the ceiling for negative ones. -/
def calculate_xp_for_earnings (amount : ℚ) : ℤ :=
  if 0 ≤ amount * 10 then ⌊amount * 10⌋ else ⌈amount * 10⌉

/-- The `while new_xp >= xp_to_next` cascading level-up loop inside
`award_xp`: repeatedly subtract the current threshold and increment the
level.  The positivity conjunct is needed for termination in Lean; it
holds at every reachable level (the threshold is ≥ 100 for `level ≥ 1`,
and levels start at 1 and only increase). -/
def levelLoop (xp : ℤ) (level : ℕ) : ℤ × ℕ :=
  if h : 0 < calculate_xp_to_next_level level ∧
      (calculate_xp_to_next_level level : ℤ) ≤ xp then
    levelLoop (xp - calculate_xp_to_next_level level) (level + 1)
  else
    (xp, level)
termination_by xp.toNat
decreasing_by omega

/-- The stats document `award_xp` writes for a first-time user
(the `if not stats_doc.exists` branch). -/
def defaultStats : UserStats :=
  { level := 1, experiencePoints := 0, totalExperience := 0,
    currentStreak := 0, longestStreak := 0, lastActivityDate := none,
    totalActivitiesLogged := 0, totalEarnings := 0, badgesEarned := 0 }

/-- The result dictionary returned by `award_xp`. -/
structure AwardResult where
  xp_awarded : ℤ
  new_xp : ℤ
  new_total_xp : ℤ
  level : ℕ
  level_up : Bool
  xp_to_next_level : ℕ
  old_level : Option ℕ
deriving DecidableEq, Repr

/-- Embeds `GamificationService.award_xp` (success path): lazily initialize the
stats document, add the amount to `experiencePoints` and
`totalExperience`, run the cascading level-up loop, and write back the
three fields.  Returns the updated document together with the result
dictionary. -/
def award_xp (stats? : Option UserStats) (xp_amount : ℤ) : UserStats × AwardResult :=
  let stats := stats?.getD defaultStats
  let new_xp0 := stats.experiencePoints + xp_amount
  let new_total_xp := stats.totalExperience + xp_amount
  let r := levelLoop new_xp0 stats.level
  let new_xp := r.1
  let new_level := r.2
  let level_up := decide (stats.level < new_level)
  ({ stats with
      experiencePoints := new_xp,
      totalExperience := new_total_xp,
      level := new_level },
   { xp_awarded := xp_amount, new_xp := new_xp, new_total_xp := new_total_xp,
     level := new_level, level_up := level_up,
     xp_to_next_level := calculate_xp_to_next_level new_level,
     old_level := if stats.level < new_level then some stats.level else none })

/-! ## Basic facts about the XP threshold and the level-up loop -/

theorem sqrt_eq_of (n m : ℕ) (h1 : m * m ≤ n) (h2 : n < (m + 1) * (m + 1)) :
    Nat.sqrt n = m := by
  have a := Nat.le_sqrt.mpr h1
  have b := Nat.sqrt_lt.mpr h2
  omega

theorem xp_to_next_level_one : calculate_xp_to_next_level 1 = 100 :=
  sqrt_eq_of 10000 100 (by norm_num) (by norm_num)

theorem xp_to_next_level_two : calculate_xp_to_next_level 2 = 282 :=
  sqrt_eq_of 80000 282 (by norm_num) (by norm_num)

theorem xp_to_next_level_three : calculate_xp_to_next_level 3 = 519 :=
  sqrt_eq_of 270000 519 (by norm_num) (by norm_num)

/-- The threshold is at least 100 at every level ≥ 1. -/
theorem xp_to_next_level_ge (level : ℕ) (h : 1 ≤ level) :
    100 ≤ calculate_xp_to_next_level level := by
  have h1 : 10000 * 1 ^ 3 ≤ 10000 * level ^ 3 := by
    have : 1 ≤ level ^ 3 := Nat.one_le_pow _ _ h
    simpa using Nat.mul_le_mul_left 10000 this
  have h2 := Nat.sqrt_le_sqrt h1
  have h3 : Nat.sqrt (10000 * 1 ^ 3) = 100 :=
    sqrt_eq_of _ 100 (by norm_num) (by norm_num)
  unfold calculate_xp_to_next_level
  omega

theorem levelLoop_eq_of_stop (xp : ℤ) (level : ℕ)
    (h : ¬ (0 < calculate_xp_to_next_level level ∧
      (calculate_xp_to_next_level level : ℤ) ≤ xp)) :
    levelLoop xp level = (xp, level) := by
  conv_lhs => rw [levelLoop]
  exact dif_neg h

theorem levelLoop_eq_of_lt (xp : ℤ) (level : ℕ)
    (h : xp < (calculate_xp_to_next_level level : ℤ)) :
    levelLoop xp level = (xp, level) :=
  levelLoop_eq_of_stop xp level (by omega)

theorem levelLoop_eq_of_ge (xp : ℤ) (level : ℕ)
    (h0 : 0 < calculate_xp_to_next_level level)
    (h : (calculate_xp_to_next_level level : ℤ) ≤ xp) :
    levelLoop xp level =
      levelLoop (xp - calculate_xp_to_next_level level) (level + 1) := by
  conv_lhs => rw [levelLoop]
  exact dif_pos ⟨h0, h⟩

/-- The loop never decreases the level. -/
theorem levelLoop_level_le (xp : ℤ) (level : ℕ) : level ≤ (levelLoop xp level).2 := by
  induction xp, level using levelLoop.induct with
  | case1 xp level h ih =>
    rw [levelLoop_eq_of_ge xp level h.1 h.2]
    omega
  | case2 xp level h =>
    rw [levelLoop_eq_of_stop xp level h]

/-- Starting from a level ≥ 1, the loop exits with the remaining XP
strictly below the threshold of the final level. -/
theorem levelLoop_xp_lt (xp : ℤ) (level : ℕ) (h : 1 ≤ level) :
    (levelLoop xp level).1 < (calculate_xp_to_next_level (levelLoop xp level).2 : ℤ) := by
  induction xp, level using levelLoop.induct with
  | case1 xp level hc ih =>
    rw [levelLoop_eq_of_ge xp level hc.1 hc.2]
    exact ih (by omega)
  | case2 xp level hc =>
    rw [levelLoop_eq_of_stop xp level hc]
    have := xp_to_next_level_ge level h
    simp only [not_and, not_le] at hc
    exact hc (by omega)

/-! ## Field-level facts about `award_xp` -/

theorem award_xp_totalExperience (s : UserStats) (a : ℤ) :
    (award_xp (some s) a).1.totalExperience = s.totalExperience + a := rfl

theorem award_xp_level_le (s : UserStats) (a : ℤ) :
    s.level ≤ (award_xp (some s) a).1.level :=
  levelLoop_level_le (s.experiencePoints + a) s.level

theorem award_xp_xp_lt (s : UserStats) (a : ℤ) (h : 1 ≤ s.level) :
    (award_xp (some s) a).1.experiencePoints <
      (calculate_xp_to_next_level (award_xp (some s) a).1.level : ℤ) :=
  levelLoop_xp_lt (s.experiencePoints + a) s.level h

theorem award_xp_currentStreak (s : UserStats) (a : ℤ) :
    (award_xp (some s) a).1.currentStreak = s.currentStreak := rfl

theorem award_xp_longestStreak (s : UserStats) (a : ℤ) :
    (award_xp (some s) a).1.longestStreak = s.longestStreak := rfl

theorem award_xp_lastActivityDate (s : UserStats) (a : ℤ) :
    (award_xp (some s) a).1.lastActivityDate = s.lastActivityDate := rfl

theorem award_xp_totalActivitiesLogged (s : UserStats) (a : ℤ) :
    (award_xp (some s) a).1.totalActivitiesLogged = s.totalActivitiesLogged := rfl

theorem award_xp_totalEarnings (s : UserStats) (a : ℤ) :
    (award_xp (some s) a).1.totalEarnings = s.totalEarnings := rfl

/-! ## Streak tracker -/

/-- Result dictionary returned by `update_streak`. -/
structure StreakResult where
  current_streak : ℕ
  longest_streak : ℕ
  streak_bonus_xp : ℕ
  streak_continued : Bool
deriving DecidableEq, Repr

/-- The stats document `update_streak` writes for a first-time user
(note the source sets `totalActivitiesLogged` to 1 in this branch). -/
def firstActivityStats (now : ℤ) : UserStats :=
  { level := 1, experiencePoints := 0, totalExperience := 0,
    currentStreak := 1, longestStreak := 1, lastActivityDate := some now,
    totalActivitiesLogged := 1, totalEarnings := 0, badgesEarned := 0 }

/-- Tail of `update_streak` shared by the continue/reset/no-date branches:
update the longest streak, compute the 7-day milestone bonus, write the
document, then award the bonus XP through `award_xp` when positive. -/
def streakFinish (stats : UserStats) (now : ℤ) (current_streak : ℕ)
    (streak_continued : Bool) : UserStats × StreakResult :=
  let longest_streak :=
    if stats.longestStreak < current_streak then current_streak
    else stats.longestStreak
  let streak_bonus_xp := if current_streak % 7 = 0 then current_streak * 10 else 0
  let stats1 :=
    { stats with
      currentStreak := current_streak,
      longestStreak := longest_streak,
      lastActivityDate := some now }
  let stats2 :=
    if 0 < streak_bonus_xp then (award_xp (some stats1) streak_bonus_xp).1
    else stats1
  (stats2,
   { current_streak := current_streak, longest_streak := longest_streak,
     streak_bonus_xp := streak_bonus_xp, streak_continued := streak_continued })

/-- Embeds `GamificationService.update_streak` (success path).  The elapsed-day
count `(now - last_activity).days` of the Python `timedelta` is floor
division of the elapsed seconds by 86400. -/
def update_streak (stats? : Option UserStats) (now : ℤ) : UserStats × StreakResult :=
  match stats? with
  | none =>
      (firstActivityStats now,
       { current_streak := 1, longest_streak := 1, streak_bonus_xp := 0,
         streak_continued := false })
  | some stats =>
      match stats.lastActivityDate with
      | some last =>
          let days := (now - last).fdiv 86400
          if days = 0 then
            (stats,
             { current_streak := stats.currentStreak,
               longest_streak := stats.longestStreak,
               streak_bonus_xp := 0, streak_continued := false })
          else if days = 1 then
            streakFinish stats now (stats.currentStreak + 1) true
          else
            streakFinish stats now 1 false
      | none => streakFinish stats now 1 false

/-! ## Counters -/

/-- Embeds `GamificationService.increment_activity_count` (success path). -/
def increment_activity_count (stats? : Option UserStats) : UserStats :=
  match stats? with
  | some s => { s with totalActivitiesLogged := s.totalActivitiesLogged + 1 }
  | none =>
      { level := 1, experiencePoints := 0, totalExperience := 0,
        currentStreak := 0, longestStreak := 0, lastActivityDate := none,
        totalActivitiesLogged := 1, totalEarnings := 0, badgesEarned := 0 }

/-- Embeds `GamificationService.add_to_total_earnings` (success path). -/
def add_to_total_earnings (stats? : Option UserStats) (amount : ℚ) : UserStats :=
  match stats? with
  | some s => { s with totalEarnings := s.totalEarnings + amount }
  | none =>
      { level := 1, experiencePoints := 0, totalExperience := 0,
        currentStreak := 0, longestStreak := 0, lastActivityDate := none,
        totalActivitiesLogged := 0, totalEarnings := amount, badgesEarned := 0 }

/-! ## Badge catalog (`src/backend/badge_definitions.py`)

Description and icon strings are irrelevant to the logic and omitted;
all other fields are kept. -/

structure Badge where
  id : String
  name : String
  category : String
  requirement_type : String
  requirement_value : ℕ
  rarity : String
deriving DecidableEq, Repr

/-- The `BADGES` dictionary, in source (insertion) order. -/
def BADGES : List Badge := [
  { id := "first_steps", name := "First Steps", category := "activity",
    requirement_type := "activity_count", requirement_value := 1, rarity := "common" },
  { id := "getting_started", name := "Getting Started", category := "activity",
    requirement_type := "activity_count", requirement_value := 10, rarity := "common" },
  { id := "dedicated", name := "Dedicated", category := "activity",
    requirement_type := "activity_count", requirement_value := 50, rarity := "rare" },
  { id := "super_achiever", name := "Super Achiever", category := "activity",
    requirement_type := "activity_count", requirement_value := 100, rarity := "epic" },
  { id := "legendary_worker", name := "Legendary Worker", category := "activity",
    requirement_type := "activity_count", requirement_value := 500, rarity := "legendary" },
  { id := "first_dollar", name := "First Dollar", category := "earnings",
    requirement_type := "total_earnings", requirement_value := 1, rarity := "common" },
  { id := "money_maker", name := "Money Maker", category := "earnings",
    requirement_type := "total_earnings", requirement_value := 50, rarity := "rare" },
  { id := "big_earner", name := "Big Earner", category := "earnings",
    requirement_type := "total_earnings", requirement_value := 100, rarity := "epic" },
  { id := "wealth_builder", name := "Wealth Builder", category := "earnings",
    requirement_type := "total_earnings", requirement_value := 500, rarity := "legendary" },
  { id := "on_fire", name := "On Fire", category := "streak",
    requirement_type := "current_streak", requirement_value := 7, rarity := "rare" },
  { id := "unstoppable", name := "Unstoppable", category := "streak",
    requirement_type := "current_streak", requirement_value := 30, rarity := "epic" },
  { id := "streak_master", name := "Streak Master", category := "streak",
    requirement_type := "current_streak", requirement_value := 100, rarity := "legendary" },
  { id := "bookworm", name := "Bookworm", category := "reading",
    requirement_type := "pages_read", requirement_value := 100, rarity := "common" },
  { id := "avid_reader", name := "Avid Reader", category := "reading",
    requirement_type := "pages_read", requirement_value := 500, rarity := "rare" },
  { id := "library_master", name := "Library Master", category := "reading",
    requirement_type := "pages_read", requirement_value := 1000, rarity := "epic" },
  { id := "early_bird", name := "Early Bird", category := "special",
    requirement_type := "special", requirement_value := 1, rarity := "rare" },
  { id := "night_owl", name := "Night Owl", category := "special",
    requirement_type := "special", requirement_value := 1, rarity := "rare" },
  { id := "weekend_warrior", name := "Weekend Warrior", category := "special",
    requirement_type := "special", requirement_value := 1, rarity := "rare" },
  { id := "perfect_week", name := "Perfect Week", category := "special",
    requirement_type := "special", requirement_value := 1, rarity := "epic" },
  { id := "goal_crusher", name := "Goal Crusher", category := "special",
    requirement_type := "goals_completed", requirement_value := 1, rarity := "rare" }]

/-! ## Badge evaluation -/

/-- Unlock record stored per earned badge in the `user_badges` document. -/
structure UnlockInfo where
  earnedAt : ℤ
  progress : ℕ
deriving DecidableEq, Repr

/-- The per-user `badges` mapping, an association list standing for a
Python dict (unique keys; insertion appends a new key). -/
abbrev BadgeMap := List (String × UnlockInfo)

/-- First-match association-list lookup (Python `dict` access). -/
def assocLookup {β : Type} (m : List (String × β)) (k : String) : Option β :=
  match m with
  | [] => none
  | p :: t => if p.1 = k then some p.2 else assocLookup t k

/-- The `requirement_type` dispatch inside `check_and_award_badges`:
`pages_read` and `goals_completed` are explicit `earned = False` branches,
and any other type (the catalog's "special") falls through the `elif`
chain leaving `earned = False`. -/
def badgeRequirementMet (stats : UserStats) (b : Badge) : Bool :=
  if b.requirement_type = "activity_count" then
    decide (b.requirement_value ≤ stats.totalActivitiesLogged)
  else if b.requirement_type = "total_earnings" then
    decide ((b.requirement_value : ℚ) ≤ stats.totalEarnings)
  else if b.requirement_type = "current_streak" then
    decide (b.requirement_value ≤ stats.currentStreak)
  else
    false

/-- One iteration of the `for badge_id, badge_def in all_badges.items()`
loop: skip ids already in the mapping, otherwise evaluate the requirement
and on success insert the unlock record and collect the badge. -/
def badgeStep (stats : UserStats) (now : ℤ) (acc : BadgeMap × List Badge)
    (b : Badge) : BadgeMap × List Badge :=
  if (assocLookup acc.1 b.id).isSome then acc
  else if badgeRequirementMet stats b then
    (acc.1 ++ [(b.id, { earnedAt := now, progress := 100 })], acc.2 ++ [b])
  else acc

/-- Embeds `GamificationService.check_and_award_badges` (success path): with no
stats document return the empty list without creating one; lazily
initialize the badge document to an empty mapping; scan the catalog in
order; write the mapping and `badgesEarned := len(earned_badges)` only
when something was newly earned.  Returns (stats document, stored badge
mapping, newly earned badges). -/
def check_and_award_badges (stats? : Option UserStats) (badges? : Option BadgeMap)
    (now : ℤ) : Option UserStats × BadgeMap × List Badge :=
  match stats? with
  | none => (none, badges?.getD [], [])
  | some stats =>
      let earned0 := badges?.getD []
      let r := BADGES.foldl (badgeStep stats now) (earned0, [])
      if r.2.isEmpty then (some stats, earned0, [])
      else (some { stats with badgesEarned := r.1.length }, r.1, r.2)

/-! ## Earnings calculator (`src/backend/services/earnings_service.py`) -/

inductive VerificationStatus
  | pending
  | approved
  | rejected
deriving DecidableEq, Repr

structure Activity where
  id : String
  familyId : String
  rate : ℚ
deriving DecidableEq, Repr

structure LogEntry where
  id : String
  activityId : String
  userId : String
  familyId : String
  units : ℕ
  timestamp : ℤ
  verificationStatus : VerificationStatus
deriving DecidableEq, Repr

/-- Python dict assignment `m[k] = v`: overwrite in place when the key is
present, append otherwise. -/
def dictInsert (m : List (String × ℚ)) (k : String) (v : ℚ) :
    List (String × ℚ) :=
  if (assocLookup m k).isSome then
    m.map (fun p => if p.1 = k then (k, v) else p)
  else m ++ [(k, v)]

/-- The `activity_rates` table: `activityId → rate` over the family's
activities. -/
def activityRates (activities : List Activity) (family_id : String) :
    List (String × ℚ) :=
  (activities.filter (fun a => a.familyId = family_id)).foldl
    (fun m a => dictInsert m a.id a.rate) []

/-- The Firestore query filter of `calculate_earnings_for_user`: same
user, same family, timestamp within `[start_time, end_time]`, inclusive
on both ends (`>=` and `<=` in the source). -/
def logInQuery (user_id family_id : String) (start_time end_time : ℤ)
    (l : LogEntry) : Bool :=
  decide (l.userId = user_id) && decide (l.familyId = family_id) &&
    decide (start_time ≤ l.timestamp) && decide (l.timestamp ≤ end_time)

/-- Earnings of one log entry: `units * rate`, the rate defaulting to 0
(`activity_rates.get(activity_id, 0.0)`) when the activity is absent. -/
def logEarnings (rates : List (String × ℚ)) (l : LogEntry) : ℚ :=
  (l.units : ℚ) * ((assocLookup rates l.activityId).getD 0)

/-- Body of the `for log_doc in query.stream()` accumulation loop:
`approved` goes to the verified total, `pending` to the pending total,
`rejected` to neither.  The accumulator is `(pending, verified)`. -/
def earningsStep (rates : List (String × ℚ)) (acc : ℚ × ℚ) (l : LogEntry) :
    ℚ × ℚ :=
  match l.verificationStatus with
  | .approved => (acc.1, acc.2 + logEarnings rates l)
  | .pending => (acc.1 + logEarnings rates l, acc.2)
  | .rejected => acc

/-- Embeds `calculate_earnings_for_user` (success path).  Returns
`(pending_earnings, verified_earnings)`. -/
def calculate_earnings_for_user (logs : List LogEntry)
    (activities : List Activity) (user_id family_id : String)
    (start_time end_time : ℤ) : ℚ × ℚ :=
  let rates := activityRates activities family_id
  let relevant := logs.filter (logInQuery user_id family_id start_time end_time)
  relevant.foldl (earningsStep rates) (0, 0)

/-! ## Orchestration (`src/backend/routers/logs.py`) -/

/-- The gamification-relevant per-user state the router flows touch. -/
structure GamState where
  stats : Option UserStats
  badges : Option BadgeMap
deriving DecidableEq, Repr

/-- The gamification block of `create_log`: award a flat 5 XP, update the
streak, increment the activity counter, then check badges — in that
fixed order, each step reading the state the previous step wrote. -/
def on_log_creation (g : GamState) (now : ℤ) : GamState × List Badge :=
  let s1 := (award_xp g.stats 5).1
  let s2 := (update_streak (some s1) now).1
  let s3 := increment_activity_count (some s2)
  let r := check_and_award_badges (some s3) g.badges now
  ({ stats := r.1, badges := some r.2.1 }, r.2.2)

/-- The gamification block of `verify_log` when the status is set to
`approved`: look up the approved log's activity, compute
`earnings = rate * units`, award `calculate_xp_for_earnings(earnings)`
XP, add the earnings to `totalEarnings`, then check badges — in that
fixed order.  If the activity document no longer exists the whole block
is skipped. -/
def on_log_approval (g : GamState) (activities : List Activity)
    (log : LogEntry) (now : ℤ) : GamState × List Badge :=
  match activities.find? (fun a => decide (a.id = log.activityId)) with
  | none => (g, [])
  | some act =>
      let earnings := act.rate * (log.units : ℚ)
      let s1 := (award_xp g.stats (calculate_xp_for_earnings earnings)).1
      let s2 := add_to_total_earnings (some s1) earnings
      let r := check_and_award_badges (some s2) g.badges now
      ({ stats := r.1, badges := some r.2.1 }, r.2.2)

/-! ## Store-failure model (§7 error handling)

Each gamification service method wraps its body in `try/except` whose
only raising operations are document-store calls; `failing := true` is
the *store-unavailable* fault, making every `user_stats`/`user_badges`
store operation raise. -/

/-- Backing store for one user plus the failure switch. -/
structure Store where
  userStats : Option UserStats
  userBadges : Option BadgeMap
  logs : List LogEntry
  activities : List Activity
  failing : Bool
deriving DecidableEq, Repr

/-- An error-tagged gamification result: the `except` clause returns a
dictionary with an `error` key instead of raising. -/
inductive GamOutcome (α : Type)
  | ok : α → GamOutcome α
  | error : String → GamOutcome α
deriving DecidableEq, Repr

def storeErrorMsg : String := "store unavailable"

/-- Runs `award_xp` with its `try/except`: a store error is caught and an
error dictionary is returned; nothing is written. -/
def award_xp_run (st : Store) (xp_amount : ℤ) :
    Store × GamOutcome AwardResult :=
  if st.failing then (st, .error storeErrorMsg)
  else
    let r := award_xp st.userStats xp_amount
    ({ st with userStats := some r.1 }, .ok r.2)

/-- Runs `update_streak` with its `try/except`. -/
def update_streak_run (st : Store) (now : ℤ) :
    Store × GamOutcome StreakResult :=
  if st.failing then (st, .error storeErrorMsg)
  else
    let r := update_streak st.userStats now
    ({ st with userStats := some r.1 }, .ok r.2)

/-- Runs `check_and_award_badges` with its `try/except`: a store error is
caught and the empty list is returned. -/
def check_and_award_badges_run (st : Store) (now : ℤ) : Store × List Badge :=
  if st.failing then (st, [])
  else
    match st.userStats with
    | none => (st, [])
    | some stats =>
        let r := check_and_award_badges (some stats) st.userBadges now
        ({ st with userStats := r.1, userBadges := some r.2.1 }, r.2.2)

/-- Runs `increment_activity_count` with its `try/except` (errors are
swallowed entirely). -/
def increment_activity_count_run (st : Store) : Store :=
  if st.failing then st
  else { st with userStats := some (increment_activity_count st.userStats) }

/-- Runs `add_to_total_earnings` with its `try/except`. -/
def add_to_total_earnings_run (st : Store) (amount : ℚ) : Store :=
  if st.failing then st
  else { st with userStats := some (add_to_total_earnings st.userStats amount) }

/-- Runs `calculate_earnings_for_user` with its `try/except ... raise`: a
store error is logged and then re-raised to the caller. -/
def calculate_earnings_run (st : Store) (user_id family_id : String)
    (start_time end_time : ℤ) : Except String (ℚ × ℚ) :=
  if st.failing then Except.error storeErrorMsg
  else Except.ok (calculate_earnings_for_user st.logs st.activities
    user_id family_id start_time end_time)

/-- The `create_log` request around its gamification block: the log write
goes to the `logs` collection, and the four gamification steps run inside
a `try/except` (and each catches its own store errors), so the response
always reports the created log. -/
def create_log_request (st : Store) (log : LogEntry) (now : ℤ) :
    Store × Except String LogEntry :=
  let st1 := { st with logs := st.logs ++ [log] }
  let st2 := (award_xp_run st1 5).1
  let st3 := (update_streak_run st2 now).1
  let st4 := increment_activity_count_run st3
  let st5 := (check_and_award_badges_run st4 now).1
  (st5, Except.ok log)

/-- The `verify_log` request around its gamification block on approval:
as with `create_log`, a gamification failure cannot abort the request. -/
def approve_log_request (st : Store) (log : LogEntry) (now : ℤ) :
    Store × Except String LogEntry :=
  match st.activities.find? (fun a => decide (a.id = log.activityId)) with
  | none => (st, Except.ok log)
  | some act =>
      let earnings := act.rate * (log.units : ℚ)
      let st1 := (award_xp_run st (calculate_xp_for_earnings earnings)).1
      let st2 := add_to_total_earnings_run st1 earnings
      let st3 := (check_and_award_badges_run st2 now).1
      (st3, Except.ok log)

/-! ## Association-list lemmas -/

theorem assocLookup_append_of_isSome {β : Type} (m1 m2 : List (String × β))
    (k : String) (h : (assocLookup m1 k).isSome) :
    assocLookup (m1 ++ m2) k = assocLookup m1 k := by
  induction m1 with
  | nil => simp [assocLookup] at h
  | cons p t ih =>
    by_cases hp : p.1 = k
    · simp [assocLookup, if_pos hp]
    · simp only [assocLookup, if_neg hp] at h
      simp only [List.cons_append, assocLookup, if_neg hp]
      exact ih h

theorem assocLookup_append_of_eq_none {β : Type} (m1 m2 : List (String × β))
    (k : String) (h : assocLookup m1 k = none) :
    assocLookup (m1 ++ m2) k = assocLookup m2 k := by
  induction m1 with
  | nil => simp [assocLookup]
  | cons p t ih =>
    by_cases hp : p.1 = k
    · simp [assocLookup, if_pos hp] at h
    · simp only [assocLookup, if_neg hp] at h
      simp only [List.cons_append, assocLookup, if_neg hp]
      exact ih h

theorem assocLookup_single_of_ne {β : Type} (a k : String) (v : β)
    (h : a ≠ k) : assocLookup [(a, v)] k = none := by
  simp [assocLookup, if_neg h]

theorem assocLookup_map_self {β : Type} (xs : List Badge) (b : Badge)
    (hb : b ∈ xs) (f : Badge → β) :
    (assocLookup (xs.map (fun x => (x.id, f x))) b.id).isSome := by
  induction xs with
  | nil => cases hb
  | cons c t ih =>
    rcases List.mem_cons.mp hb with h | h
    · subst h
      simp [assocLookup]
    · by_cases hc : c.id = b.id
      · simp [assocLookup, if_pos hc]
      · simp only [List.map_cons, assocLookup, if_neg hc]
        exact ih h

theorem assocLookup_map_eq_none {β : Type} (xs : List Badge) (k : String)
    (h : ∀ x ∈ xs, x.id ≠ k) (f : Badge → β) :
    assocLookup (xs.map (fun x => (x.id, f x))) k = none := by
  induction xs with
  | nil => rfl
  | cons c t ih =>
    simp only [List.map_cons, assocLookup,
      if_neg (h c (List.mem_cons_self c t))]
    exact ih (fun x hx => h x (List.mem_cons_of_mem c hx))

/-! ## Characterization of one `check_and_award_badges` scan -/

/-- A catalog badge qualifies as newly earned on this call exactly when
its id is not in the stored mapping and its requirement is met against
the current stats (derived loop invariant of the scan, proved in
`badgeFold_spec`). -/
def newlyQualifies (stats : UserStats) (m : BadgeMap) (b : Badge) : Bool :=
  !(assocLookup m b.id).isSome && badgeRequirementMet stats b

/-- The unlock record written for each newly earned badge. -/
def unlockEntry (now : ℤ) (b : Badge) : String × UnlockInfo :=
  (b.id, { earnedAt := now, progress := 100 })

theorem badgeFold_spec (stats : UserStats) (now : ℤ) (m : BadgeMap)
    (l : List Badge) (em : BadgeMap) (nw : List Badge)
    (hnd : (l.map Badge.id).Nodup)
    (hag : ∀ b ∈ l, assocLookup em b.id = assocLookup m b.id) :
    l.foldl (badgeStep stats now) (em, nw) =
      (em ++ (l.filter (newlyQualifies stats m)).map (unlockEntry now),
       nw ++ l.filter (newlyQualifies stats m)) := by
  induction l generalizing em nw with
  | nil => simp
  | cons c t ih =>
    have hagc := hag c (List.mem_cons_self c t)
    have hnd' : (∀ x ∈ t, ¬ x.id = c.id) ∧ (t.map Badge.id).Nodup := by
      simpa using hnd
    have hagt : ∀ b ∈ t, assocLookup em b.id = assocLookup m b.id :=
      fun b hb => hag b (List.mem_cons_of_mem c hb)
    rw [List.foldl_cons]
    by_cases hs : (assocLookup em c.id).isSome
    · have hq : newlyQualifies stats m c = false := by
        unfold newlyQualifies
        rw [← hagc]
        simp [hs]
      have hstep : badgeStep stats now (em, nw) c = (em, nw) := by
        simp [badgeStep, hs]
      rw [hstep, ih em nw hnd'.2 hagt]
      simp [List.filter_cons, hq]
    · have hnone : assocLookup em c.id = none := by
        cases h : assocLookup em c.id with
        | none => rfl
        | some v => rw [h] at hs; simp at hs
      have hmnone : assocLookup m c.id = none := by rw [← hagc]; exact hnone
      by_cases hm : badgeRequirementMet stats c = true
      · have hq : newlyQualifies stats m c = true := by
          unfold newlyQualifies
          rw [← hagc, hnone]
          simp [hm]
        have hstep : badgeStep stats now (em, nw) c =
            (em ++ [unlockEntry now c], nw ++ [c]) := by
          simp [badgeStep, hnone, hm, unlockEntry]
        have hag2 : ∀ b ∈ t,
            assocLookup (em ++ [unlockEntry now c]) b.id = assocLookup m b.id := by
          intro b hb
          have hne : c.id ≠ b.id := fun he => hnd'.1 b hb he.symm
          have hone : assocLookup [unlockEntry now c] b.id = none :=
            assocLookup_single_of_ne c.id b.id _ hne
          cases hsb : assocLookup em b.id with
          | some v =>
              rw [assocLookup_append_of_isSome em _ b.id (by rw [hsb]; rfl), hsb,
                ← hagt b hb, hsb]
          | none =>
              rw [assocLookup_append_of_eq_none em _ b.id hsb, hone, ← hagt b hb, hsb]
        rw [hstep, ih _ _ hnd'.2 hag2]
        simp [List.filter_cons, hq, List.append_assoc]
      · have hq : newlyQualifies stats m c = false := by
          unfold newlyQualifies
          simp [hm]
        have hstep : badgeStep stats now (em, nw) c = (em, nw) := by
          simp [badgeStep, hnone, hm]
        rw [hstep, ih em nw hnd'.2 hagt]
        simp [List.filter_cons, hq]

/-- The badge catalog has pairwise distinct ids. -/
theorem badges_id_nodup : (BADGES.map Badge.id).Nodup := by decide

/-- An absent badge document behaves as an empty mapping. -/
theorem check_badges_getD (stats? : Option UserStats)
    (badges? : Option BadgeMap) (now : ℤ) :
    check_and_award_badges stats? badges? now =
      check_and_award_badges stats? (some (badges?.getD [])) now := by
  cases badges? <;> rfl

/-- The newly-earned list of one call is the in-order catalog filter by
`newlyQualifies`. -/
theorem check_newly_eq (stats : UserStats) (m : BadgeMap) (now : ℤ) :
    (check_and_award_badges (some stats) (some m) now).2.2 =
      BADGES.filter (newlyQualifies stats m) := by
  simp only [check_and_award_badges, Option.getD_some]
  rw [badgeFold_spec stats now m BADGES m [] badges_id_nodup (fun _ _ => rfl)]
  simp only [List.nil_append]
  split
  next h =>
    have h2 : BADGES.filter (newlyQualifies stats m) = [] := by simpa using h
    rw [h2]
  next h => rfl

/-- The stored mapping after one call is the old mapping extended by one
unlock record per newly qualifying badge. -/
theorem check_map_eq (stats : UserStats) (m : BadgeMap) (now : ℤ) :
    (check_and_award_badges (some stats) (some m) now).2.1 =
      m ++ (BADGES.filter (newlyQualifies stats m)).map (unlockEntry now) := by
  simp only [check_and_award_badges, Option.getD_some]
  rw [badgeFold_spec stats now m BADGES m [] badges_id_nodup (fun _ _ => rfl)]
  simp only [List.nil_append]
  split
  next h =>
    have h2 : BADGES.filter (newlyQualifies stats m) = [] := by simpa using h
    rw [h2]
    simp
  next h => rfl

/-- When something was newly earned, `badgesEarned` is set to the size of
the updated mapping. -/
theorem check_stats_eq_of_ne_nil (stats : UserStats) (m : BadgeMap) (now : ℤ)
    (h : BADGES.filter (newlyQualifies stats m) ≠ []) :
    (check_and_award_badges (some stats) (some m) now).1 =
      some { stats with
        badgesEarned :=
          ((check_and_award_badges (some stats) (some m) now).2.1).length } := by
  rw [check_map_eq]
  simp only [check_and_award_badges, Option.getD_some]
  rw [badgeFold_spec stats now m BADGES m [] badges_id_nodup (fun _ _ => rfl)]
  simp only [List.nil_append]
  split
  next h2 =>
    exact absurd (by simpa using h2) h
  next h2 => rfl

/-- One call changes the stats document at most in `badgesEarned`. -/
theorem check_stats_fields (stats : UserStats) (m : BadgeMap) (now : ℤ) :
    ∃ n, (check_and_award_badges (some stats) (some m) now).1 =
      some { stats with badgesEarned := n } := by
  simp only [check_and_award_badges, Option.getD_some]
  split
  next h => exact ⟨stats.badgesEarned, rfl⟩
  next h => exact ⟨_, rfl⟩

theorem assocLookup_unlock_self (xs : List Badge) (b : Badge) (hb : b ∈ xs)
    (now : ℤ) : (assocLookup (xs.map (unlockEntry now)) b.id).isSome :=
  assocLookup_map_self xs b hb _

theorem assocLookup_unlock_eq_none (xs : List Badge) (k : String)
    (h : ∀ x ∈ xs, x.id ≠ k) (now : ℤ) :
    assocLookup (xs.map (unlockEntry now)) k = none :=
  assocLookup_map_eq_none xs k h _

/-- C6: for every user and every badge id already present in that user's
unlock map, no `check_and_award_badges` call includes that badge in the
newly-earned result or removes it from the unlock map (regardless of how
the stats evaluate); all newly-qualifying badges are unlocked together in
the one call, and `badgesEarned` is set to the new unlock-map size. -/
theorem check_and_award_badges_permanence (stats : UserStats) (m : BadgeMap)
    (now : ℤ) (bid : String) (hmem : (assocLookup m bid).isSome)
    (b : Badge) (hb : b ∈ BADGES) (hnew : assocLookup m b.id = none)
    (hmet : badgeRequirementMet stats b = true) :
    bid ∉ ((check_and_award_badges (some stats) (some m) now).2.2).map Badge.id ∧
    assocLookup ((check_and_award_badges (some stats) (some m) now).2.1) bid =
      assocLookup m bid ∧
    b ∈ (check_and_award_badges (some stats) (some m) now).2.2 ∧
    (assocLookup ((check_and_award_badges (some stats) (some m) now).2.1)
      b.id).isSome ∧
    (check_and_award_badges (some stats) (some m) now).1 =
      some { stats with
        badgesEarned :=
          ((check_and_award_badges (some stats) (some m) now).2.1).length } := by
  have hqb : newlyQualifies stats m b = true := by
    unfold newlyQualifies
    rw [hnew]
    simp [hmet]
  have hbf : b ∈ BADGES.filter (newlyQualifies stats m) :=
    List.mem_filter.mpr ⟨hb, hqb⟩
  refine ⟨?_, ?_, ?_, ?_, ?_⟩
  · rw [check_newly_eq]
    intro hin
    rcases List.mem_map.mp hin with ⟨b', hb', hbid⟩
    have hq' := (List.mem_filter.mp hb').2
    unfold newlyQualifies at hq'
    rw [hbid] at hq'
    simp [hmem] at hq'
  · rw [check_map_eq]
    exact assocLookup_append_of_isSome m _ bid hmem
  · rw [check_newly_eq]
    exact hbf
  · rw [check_map_eq, assocLookup_append_of_eq_none m _ b.id hnew]
    exact assocLookup_unlock_self _ b hbf now
  · exact check_stats_eq_of_ne_nil stats m now
      (fun h0 => by rw [h0] at hbf; cases hbf)

/-- The First Steps catalog entry, used in concrete instantiations. -/
def firstStepsBadge : Badge :=
  { id := "first_steps", name := "First Steps", category := "activity",
    requirement_type := "activity_count", requirement_value := 1,
    rarity := "common" }

/-- Witness for C6: a user who already holds `on_fire` and newly
qualifies for `first_steps`. -/
theorem check_and_award_badges_permanence_witness :
    (assocLookup [("on_fire", ({ earnedAt := 0, progress := 100 } : UnlockInfo))]
      "on_fire").isSome = true ∧
    firstStepsBadge ∈ BADGES ∧
    assocLookup [("on_fire", ({ earnedAt := 0, progress := 100 } : UnlockInfo))]
      firstStepsBadge.id = none ∧
    badgeRequirementMet (increment_activity_count none) firstStepsBadge = true ∧
    ("on_fire" ∉
      ((check_and_award_badges (some (increment_activity_count none))
        (some [("on_fire", { earnedAt := 0, progress := 100 })]) 0).2.2).map Badge.id ∧
      assocLookup ((check_and_award_badges (some (increment_activity_count none))
        (some [("on_fire", { earnedAt := 0, progress := 100 })]) 0).2.1) "on_fire" =
        assocLookup [("on_fire", { earnedAt := 0, progress := 100 })] "on_fire" ∧
      firstStepsBadge ∈ (check_and_award_badges (some (increment_activity_count none))
        (some [("on_fire", { earnedAt := 0, progress := 100 })]) 0).2.2 ∧
      (assocLookup ((check_and_award_badges (some (increment_activity_count none))
        (some [("on_fire", { earnedAt := 0, progress := 100 })]) 0).2.1)
        firstStepsBadge.id).isSome ∧
      (check_and_award_badges (some (increment_activity_count none))
        (some [("on_fire", { earnedAt := 0, progress := 100 })]) 0).1 =
        some { increment_activity_count none with
          badgesEarned :=
            ((check_and_award_badges (some (increment_activity_count none))
              (some [("on_fire", { earnedAt := 0, progress := 100 })]) 0).2.1).length }) :=
  ⟨by decide, by decide, by decide, by decide,
   check_and_award_badges_permanence (increment_activity_count none)
     [("on_fire", { earnedAt := 0, progress := 100 })] 0 "on_fire" (by decide)
     firstStepsBadge (by decide) (by decide) (by decide)⟩

/-- C10: the badge catalog contains exactly four badges of requirement
type "special" (`early_bird`, `night_owl`, `weekend_warrior`,
`perfect_week`), a value outside the dispatched requirement types, and
`check_and_award_badges` never puts a catalog badge of that type into
the newly-earned result or into a user's unlock map. -/
theorem special_badges_never_unlock (stats : UserStats) (m : BadgeMap)
    (now : ℤ) (b : Badge) (hb : b ∈ BADGES)
    (hsp : b.requirement_type = "special")
    (hnot : assocLookup m b.id = none) :
    (BADGES.filter (fun x => decide (x.requirement_type = "special"))).map Badge.id =
      ["early_bird", "night_owl", "weekend_warrior", "perfect_week"] ∧
    b ∉ (check_and_award_badges (some stats) (some m) now).2.2 ∧
    assocLookup ((check_and_award_badges (some stats) (some m) now).2.1) b.id =
      none := by
  have hmet : badgeRequirementMet stats b = false := by
    unfold badgeRequirementMet
    rw [hsp]
    simp
  refine ⟨by decide, ?_, ?_⟩
  · rw [check_newly_eq]
    intro hin
    have hq := (List.mem_filter.mp hin).2
    unfold newlyQualifies at hq
    rw [hmet] at hq
    simp at hq
  · rw [check_map_eq, assocLookup_append_of_eq_none m _ b.id hnot]
    refine assocLookup_unlock_eq_none _ b.id ?_ now
    intro x hx hxid
    have hxB := (List.mem_filter.mp hx).1
    have hxq := (List.mem_filter.mp hx).2
    have hxb : x = b :=
      List.inj_on_of_nodup_map badges_id_nodup hxB hb hxid
    rw [hxb] at hxq
    unfold newlyQualifies at hxq
    rw [hmet] at hxq
    simp at hxq

/-- Witness for C10: `early_bird` against a fresh stats document. -/
theorem special_badges_never_unlock_witness :
    ({ id := "early_bird", name := "Early Bird", category := "special",
       requirement_type := "special", requirement_value := 1,
       rarity := "rare" } : Badge) ∈ BADGES ∧
    ({ id := "early_bird", name := "Early Bird", category := "special",
       requirement_type := "special", requirement_value := 1,
       rarity := "rare" } : Badge).requirement_type = "special" ∧
    assocLookup ([] : BadgeMap) "early_bird" = none ∧
    (({ id := "early_bird", name := "Early Bird", category := "special",
        requirement_type := "special", requirement_value := 1,
        rarity := "rare" } : Badge) ∉
        (check_and_award_badges (some defaultStats) (some []) 0).2.2 ∧
      assocLookup ((check_and_award_badges (some defaultStats) (some []) 0).2.1)
        "early_bird" = none) :=
  ⟨by decide, by decide, by decide, by
    have h := special_badges_never_unlock defaultStats [] 0
      { id := "early_bird", name := "Early Bird", category := "special",
        requirement_type := "special", requirement_value := 1, rarity := "rare" }
      (by decide) (by decide) (by decide)
    exact ⟨h.2.1, h.2.2⟩⟩

/-! ## Streak lemmas -/

theorem streakFinish_currentStreak (stats : UserStats) (now : ℤ) (cs : ℕ)
    (ct : Bool) : (streakFinish stats now cs ct).1.currentStreak = cs := by
  simp only [streakFinish]
  split <;> split
  all_goals first
    | rw [award_xp_currentStreak]
    | rfl

theorem streakFinish_longestStreak (stats : UserStats) (now : ℤ) (cs : ℕ)
    (ct : Bool) :
    (streakFinish stats now cs ct).1.longestStreak = max stats.longestStreak cs := by
  have hmax : (if stats.longestStreak < cs then cs else stats.longestStreak) =
      max stats.longestStreak cs := by
    split <;> omega
  simp only [streakFinish, hmax]
  split <;> split
  all_goals first
    | rw [award_xp_longestStreak]
    | rfl

theorem streakFinish_lastActivityDate (stats : UserStats) (now : ℤ) (cs : ℕ)
    (ct : Bool) :
    (streakFinish stats now cs ct).1.lastActivityDate = some now := by
  simp only [streakFinish]
  split <;> split
  all_goals first
    | rw [award_xp_lastActivityDate]
    | rfl

theorem streakFinish_totalActivitiesLogged (stats : UserStats) (now : ℤ)
    (cs : ℕ) (ct : Bool) :
    (streakFinish stats now cs ct).1.totalActivitiesLogged =
      stats.totalActivitiesLogged := by
  simp only [streakFinish]
  split <;> split
  all_goals first
    | rw [award_xp_totalActivitiesLogged]
    | rfl

theorem streakFinish_totalEarnings (stats : UserStats) (now : ℤ) (cs : ℕ)
    (ct : Bool) :
    (streakFinish stats now cs ct).1.totalEarnings = stats.totalEarnings := by
  simp only [streakFinish]
  split <;> split
  all_goals first
    | rw [award_xp_totalEarnings]
    | rfl

theorem streakFinish_totalExperience (stats : UserStats) (now : ℤ) (cs : ℕ)
    (ct : Bool) :
    (streakFinish stats now cs ct).1.totalExperience =
      stats.totalExperience + ((if cs % 7 = 0 then cs * 10 else 0 : ℕ) : ℤ) := by
  simp only [streakFinish]
  split <;> split
  · rw [award_xp_totalExperience]
  · dsimp only
    omega
  · rw [award_xp_totalExperience]
  · dsimp only
    omega

theorem streakFinish_res_current (stats : UserStats) (now : ℤ) (cs : ℕ)
    (ct : Bool) : (streakFinish stats now cs ct).2.current_streak = cs := rfl

theorem streakFinish_res_bonus (stats : UserStats) (now : ℤ) (cs : ℕ)
    (ct : Bool) :
    (streakFinish stats now cs ct).2.streak_bonus_xp =
      (if cs % 7 = 0 then cs * 10 else 0) := rfl

/-- C4: `update_streak` implements exactly the day-difference transition
function on the stored stats (with `Δdays` the floor of elapsed days):
no document → initialize streaks to 1 with `lastActivityDate = now`;
`Δdays = 0` → complete no-op; `Δdays = 1` → increment and stamp;
`Δdays ≥ 2` → reset to 1 with `longestStreak` preserved; and in each
case the resulting `longestStreak` is the max of the old `longestStreak`
and the new `currentStreak`.  The stored document is assumed to satisfy
the data-model invariants `currentStreak ≤ longestStreak` and
`1 ≤ longestStreak` (§3; both hold for any document a previous
`update_streak` wrote). -/
theorem update_streak_transitions (s : UserStats) (last : ℤ)
    (hlast : s.lastActivityDate = some last)
    (hcl : s.currentStreak ≤ s.longestStreak) (hl1 : 1 ≤ s.longestStreak)
    (nowI now0 now1 now2 : ℤ)
    (h0 : (now0 - last).fdiv 86400 = 0)
    (h1 : (now1 - last).fdiv 86400 = 1)
    (h2 : 2 ≤ (now2 - last).fdiv 86400) :
    ((update_streak none nowI).1.currentStreak = 1 ∧
      (update_streak none nowI).1.longestStreak = 1 ∧
      (update_streak none nowI).1.lastActivityDate = some nowI) ∧
    (update_streak (some s) now0).1 = s ∧
    ((update_streak (some s) now1).1.currentStreak = s.currentStreak + 1 ∧
      (update_streak (some s) now1).1.lastActivityDate = some now1) ∧
    ((update_streak (some s) now2).1.currentStreak = 1 ∧
      (update_streak (some s) now2).1.longestStreak = s.longestStreak) ∧
    ((update_streak (some s) now0).1.longestStreak =
        max s.longestStreak (update_streak (some s) now0).1.currentStreak ∧
      (update_streak (some s) now1).1.longestStreak =
        max s.longestStreak (update_streak (some s) now1).1.currentStreak ∧
      (update_streak (some s) now2).1.longestStreak =
        max s.longestStreak (update_streak (some s) now2).1.currentStreak) := by
  have hne0 : ¬ (now2 - last).fdiv 86400 = 0 := by omega
  have hne1 : ¬ (now2 - last).fdiv 86400 = 1 := by omega
  have e0 : update_streak (some s) now0 =
      (s, { current_streak := s.currentStreak,
            longest_streak := s.longestStreak,
            streak_bonus_xp := 0, streak_continued := false }) := by
    simp only [update_streak, hlast, h0, if_pos]
  have e1 : update_streak (some s) now1 =
      streakFinish s now1 (s.currentStreak + 1) true := by
    simp only [update_streak, hlast, h1]
    norm_num
  have e2 : update_streak (some s) now2 = streakFinish s now2 1 false := by
    simp only [update_streak, hlast, if_neg hne0, if_neg hne1]
  refine ⟨⟨rfl, rfl, rfl⟩, ?_, ?_, ?_, ?_⟩
  · rw [e0]
  · rw [e1]
    exact ⟨streakFinish_currentStreak s now1 _ true,
      streakFinish_lastActivityDate s now1 _ true⟩
  · rw [e2]
    refine ⟨streakFinish_currentStreak s now2 1 false, ?_⟩
    rw [streakFinish_longestStreak]
    omega
  · refine ⟨?_, ?_, ?_⟩
    · rw [e0]
      simp
      omega
    · rw [e1, streakFinish_longestStreak, streakFinish_currentStreak]
    · rw [e2, streakFinish_longestStreak, streakFinish_currentStreak]

/-- A stored document three days into a streak with a longest of five,
used in the C4 witness. -/
def streakDemoStats : UserStats :=
  { level := 1, experiencePoints := 0, totalExperience := 0,
    currentStreak := 3, longestStreak := 5, lastActivityDate := some 0,
    totalActivitiesLogged := 4, totalEarnings := 0, badgesEarned := 0 }

/-- Witness for C4 at a concrete stored document and concrete times. -/
theorem update_streak_transitions_witness :
    streakDemoStats.lastActivityDate = some 0 ∧
    streakDemoStats.currentStreak ≤ streakDemoStats.longestStreak ∧
    1 ≤ streakDemoStats.longestStreak ∧
    ((3600 : ℤ) - 0).fdiv 86400 = 0 ∧
    ((86400 : ℤ) - 0).fdiv 86400 = 1 ∧
    (2 : ℤ) ≤ ((259200 : ℤ) - 0).fdiv 86400 ∧
    ((update_streak none 7).1.currentStreak = 1 ∧
      (update_streak none 7).1.longestStreak = 1 ∧
      (update_streak none 7).1.lastActivityDate = some 7) ∧
    (update_streak (some streakDemoStats) 3600).1 = streakDemoStats ∧
    ((update_streak (some streakDemoStats) 86400).1.currentStreak =
        streakDemoStats.currentStreak + 1 ∧
      (update_streak (some streakDemoStats) 86400).1.lastActivityDate =
        some 86400) ∧
    ((update_streak (some streakDemoStats) 259200).1.currentStreak = 1 ∧
      (update_streak (some streakDemoStats) 259200).1.longestStreak =
        streakDemoStats.longestStreak) := by
  have h := update_streak_transitions streakDemoStats 0 rfl (by decide)
    (by decide) 7 3600 86400 259200 (by decide) (by decide) (by decide)
  exact ⟨rfl, by decide, by decide, by decide, by decide, by decide,
    h.1, h.2.1, h.2.2.1, h.2.2.2.1⟩

/-- A stored document sitting at a 7-day streak, used in the C5
counterexample. -/
def streakSevenStats : UserStats :=
  { level := 1, experiencePoints := 0, totalExperience := 0,
    currentStreak := 7, longestStreak := 7, lastActivityDate := some 0,
    totalActivitiesLogged := 10, totalEarnings := 0, badgesEarned := 0 }

/-- C5 counterexample: a same-day repeat call (`Δdays = 0`) whose
resulting `current_streak` is 7 — a positive multiple of 7 — yet the
returned `streak_bonus_xp` is 0 and no XP award happens (the stored
stats are untouched): the claim's "whenever the resulting currentStreak
is a positive multiple of 7, bonus XP is awarded" fails on the same-day
early return. -/
theorem streak_bonus_same_day_counterexample :
    (update_streak (some streakSevenStats) 3600).2.current_streak = 7 ∧
    0 < 7 ∧ 7 % 7 = 0 ∧
    (update_streak (some streakSevenStats) 3600).2.streak_bonus_xp = 0 ∧
    (update_streak (some streakSevenStats) 3600).1 = streakSevenStats := by
  decide

/-- C5 (amended): on every `update_streak` call that is not a same-day
no-op (a stored `lastActivityDate` with `Δdays ≠ 0`), the resulting
`current_streak` is ≥ 1, the returned `streak_bonus_xp` equals
`current_streak * 10` when `current_streak` is a multiple of 7 and 0
otherwise, and `totalExperience` grows by exactly the bonus (one
`award_xp` call, none when the bonus is 0); a same-day call returns
`streak_bonus_xp = 0` and leaves the stored stats unchanged even when
the unchanged `currentStreak` is a positive multiple of 7. -/
theorem streak_bonus_rule (s : UserStats) (last now now0 : ℤ)
    (hlast : s.lastActivityDate = some last)
    (hnz : (now - last).fdiv 86400 ≠ 0)
    (h0 : (now0 - last).fdiv 86400 = 0) :
    1 ≤ (update_streak (some s) now).2.current_streak ∧
    (update_streak (some s) now).2.streak_bonus_xp =
      (if (update_streak (some s) now).2.current_streak % 7 = 0
       then (update_streak (some s) now).2.current_streak * 10 else 0) ∧
    (update_streak (some s) now).1.totalExperience =
      s.totalExperience + ((update_streak (some s) now).2.streak_bonus_xp : ℤ) ∧
    (update_streak (some s) now0).2.streak_bonus_xp = 0 ∧
    (update_streak (some s) now0).1 = s := by
  have e0 : update_streak (some s) now0 =
      (s, { current_streak := s.currentStreak,
            longest_streak := s.longestStreak,
            streak_bonus_xp := 0, streak_continued := false }) := by
    simp only [update_streak, hlast, h0, if_pos]
  by_cases h1 : (now - last).fdiv 86400 = 1
  · have e1 : update_streak (some s) now =
        streakFinish s now (s.currentStreak + 1) true := by
      simp only [update_streak, hlast, if_neg hnz, if_pos h1]
    rw [e1, e0]
    refine ⟨?_, ?_, ?_, rfl, rfl⟩
    · rw [streakFinish_res_current]
      omega
    · rw [streakFinish_res_bonus, streakFinish_res_current]
    · rw [streakFinish_totalExperience, streakFinish_res_bonus]
  · have e1 : update_streak (some s) now = streakFinish s now 1 false := by
      simp only [update_streak, hlast, if_neg hnz, if_neg h1]
    rw [e1, e0]
    refine ⟨?_, ?_, ?_, rfl, rfl⟩
    · rw [streakFinish_res_current]
    · rw [streakFinish_res_bonus, streakFinish_res_current]
    · rw [streakFinish_totalExperience, streakFinish_res_bonus]

/-- A stored document six days into a streak, used in the C5 witness. -/
def streakSixStats : UserStats :=
  { level := 1, experiencePoints := 0, totalExperience := 0,
    currentStreak := 6, longestStreak := 6, lastActivityDate := some 0,
    totalActivitiesLogged := 6, totalEarnings := 0, badgesEarned := 0 }

/-- Witness for the amended C5: continuing a 6-day streak to 7 the next
day (the bonus branch), plus a same-day no-op. -/
theorem streak_bonus_rule_witness :
    streakSixStats.lastActivityDate = some 0 ∧
    ((86400 : ℤ) - 0).fdiv 86400 ≠ 0 ∧
    ((3600 : ℤ) - 0).fdiv 86400 = 0 ∧
    (1 ≤ (update_streak (some streakSixStats) 86400).2.current_streak ∧
      (update_streak (some streakSixStats) 86400).2.streak_bonus_xp =
        (if (update_streak (some streakSixStats) 86400).2.current_streak % 7 = 0
         then (update_streak (some streakSixStats) 86400).2.current_streak * 10
         else 0) ∧
      (update_streak (some streakSixStats) 86400).1.totalExperience =
        streakSixStats.totalExperience +
          ((update_streak (some streakSixStats) 86400).2.streak_bonus_xp : ℤ) ∧
      (update_streak (some streakSixStats) 3600).2.streak_bonus_xp = 0 ∧
      (update_streak (some streakSixStats) 3600).1 = streakSixStats) := by
  have h := streak_bonus_rule streakSixStats 0 86400 3600 rfl (by decide)
    (by decide)
  exact ⟨rfl, by decide, by decide, h⟩

/-! ## Leveling invariants (C1, C2) -/

/-- A sequence of `award_xp` calls against the stored stats document. -/
def awardSeq (s : UserStats) (amounts : List ℤ) : UserStats :=
  amounts.foldl (fun st a => (award_xp (some st) a).1) s

theorem awardSeq_append (s : UserStats) (l1 l2 : List ℤ) :
    awardSeq s (l1 ++ l2) = awardSeq (awardSeq s l1) l2 :=
  List.foldl_append _ _ l1 l2

theorem awardSeq_level_le (s : UserStats) (amounts : List ℤ) :
    s.level ≤ (awardSeq s amounts).level := by
  induction amounts generalizing s with
  | nil => exact le_rfl
  | cons a t ih => exact le_trans (award_xp_level_le s a) (ih _)

theorem awardSeq_totalExperience (s : UserStats) (amounts : List ℤ) :
    (awardSeq s amounts).totalExperience = s.totalExperience + amounts.sum := by
  induction amounts generalizing s with
  | nil => simp [awardSeq]
  | cons a t ih =>
    show (awardSeq (award_xp (some s) a).1 t).totalExperience = _
    rw [ih, award_xp_totalExperience, List.sum_cons]
    ring

theorem awardSeq_xp_lt (s : UserStats) (amounts : List ℤ) (h : 1 ≤ s.level)
    (h2 : s.experiencePoints < (calculate_xp_to_next_level s.level : ℤ)) :
    (awardSeq s amounts).experiencePoints <
      (calculate_xp_to_next_level (awardSeq s amounts).level : ℤ) := by
  induction amounts generalizing s with
  | nil => exact h2
  | cons a t ih =>
    show (awardSeq (award_xp (some s) a).1 t).experiencePoints < _
    exact ih _ (le_trans h (award_xp_level_le s a)) (award_xp_xp_lt s a h)

/-- C1: for a user starting from the lazily-initialized stats document
(`level = 1`, `experiencePoints = 0`, `totalExperience = 0`) and any
sequence of non-negative awards, after every prefix of the sequence:
`totalExperience` is the sum of the amounts awarded so far, `level` is
non-decreasing across calls, and `experiencePoints` stays strictly below
`calculate_xp_to_next_level(level)`. -/
theorem award_xp_sequence_invariants (s : UserStats)
    (hlev : s.level = 1) (hxp : s.experiencePoints = 0)
    (htot : s.totalExperience = 0)
    (amounts : List ℤ) (hnn : ∀ a ∈ amounts, 0 ≤ a) (i j : ℕ) (hij : i ≤ j) :
    (awardSeq s (amounts.take i)).totalExperience = (amounts.take i).sum ∧
    (awardSeq s (amounts.take i)).level ≤ (awardSeq s (amounts.take j)).level ∧
    (awardSeq s (amounts.take i)).experiencePoints <
      (calculate_xp_to_next_level (awardSeq s (amounts.take i)).level : ℤ) := by
  refine ⟨?_, ?_, ?_⟩
  · rw [awardSeq_totalExperience, htot, zero_add]
  · have hsplit : amounts.take i ++ (amounts.take j).drop i = amounts.take j := by
      conv_rhs => rw [← List.take_append_drop i (amounts.take j)]
      rw [List.take_take, min_eq_left hij]
    calc (awardSeq s (amounts.take i)).level
        ≤ (awardSeq (awardSeq s (amounts.take i))
            ((amounts.take j).drop i)).level := awardSeq_level_le _ _
      _ = (awardSeq s (amounts.take j)).level := by
          rw [← awardSeq_append, hsplit]
  · refine awardSeq_xp_lt s _ (by omega) ?_
    rw [hxp, hlev, xp_to_next_level_one]
    norm_num

/-- Witness for C1 on the concrete award sequence `[5, 200]`. -/
theorem award_xp_sequence_invariants_witness :
    defaultStats.level = 1 ∧ defaultStats.experiencePoints = 0 ∧
    defaultStats.totalExperience = 0 ∧
    (∀ a ∈ ([5, 200] : List ℤ), 0 ≤ a) ∧ (1 : ℕ) ≤ 2 ∧
    ((awardSeq defaultStats (([5, 200] : List ℤ).take 1)).totalExperience =
        (([5, 200] : List ℤ).take 1).sum ∧
      (awardSeq defaultStats (([5, 200] : List ℤ).take 1)).level ≤
        (awardSeq defaultStats (([5, 200] : List ℤ).take 2)).level ∧
      (awardSeq defaultStats (([5, 200] : List ℤ).take 1)).experiencePoints <
        (calculate_xp_to_next_level
          (awardSeq defaultStats (([5, 200] : List ℤ).take 1)).level : ℤ)) :=
  ⟨rfl, rfl, rfl, by decide, by decide,
   award_xp_sequence_invariants defaultStats rfl rfl rfl [5, 200]
     (by decide) 1 2 (by decide)⟩

/-- Equation exposing the loop result behind the `level` field. -/
theorem award_xp_level_eq (s : UserStats) (a : ℤ) :
    (award_xp (some s) a).1.level =
      (levelLoop (s.experiencePoints + a) s.level).2 := rfl

/-- Equation exposing the loop result behind `experiencePoints`. -/
theorem award_xp_xp_eq (s : UserStats) (a : ℤ) :
    (award_xp (some s) a).1.experiencePoints =
      (levelLoop (s.experiencePoints + a) s.level).1 := rfl

/-- C2: one `award_xp` call whose amount covers the next two thresholds
increments the level at least twice (the loop cascades); concretely,
awarding 400 XP at level 1 with 0 XP passes thresholds 100 and 282 and
lands on level 3 with 18 XP remaining (18 < 519). -/
theorem award_xp_cascade (s : UserStats) (hlev : 1 ≤ s.level)
    (hxp : s.experiencePoints = 0) (a : ℤ)
    (ha : (calculate_xp_to_next_level s.level : ℤ) +
      (calculate_xp_to_next_level (s.level + 1) : ℤ) ≤ a) :
    s.level + 2 ≤ (award_xp (some s) a).1.level ∧
    (award_xp (some defaultStats) 400).1.level = 3 ∧
    (award_xp (some defaultStats) 400).1.experiencePoints = 18 := by
  have t1 := xp_to_next_level_ge s.level hlev
  have t2 := xp_to_next_level_ge (s.level + 1) (by omega)
  have e1 : levelLoop (s.experiencePoints + a) s.level =
      levelLoop (s.experiencePoints + a - calculate_xp_to_next_level s.level)
        (s.level + 1) :=
    levelLoop_eq_of_ge _ _ (by omega) (by omega)
  have e2 : levelLoop (s.experiencePoints + a - calculate_xp_to_next_level s.level)
        (s.level + 1) =
      levelLoop (s.experiencePoints + a - calculate_xp_to_next_level s.level
        - calculate_xp_to_next_level (s.level + 1)) (s.level + 2) :=
    levelLoop_eq_of_ge _ _ (by omega) (by omega)
  have c1 : levelLoop ((0 : ℤ) + 400) 1 = levelLoop 300 2 := by
    have h := levelLoop_eq_of_ge ((0 : ℤ) + 400) 1
      (by rw [xp_to_next_level_one]; norm_num)
      (by rw [xp_to_next_level_one]; push_cast)
    rw [h, xp_to_next_level_one]
    norm_num
  have c2 : levelLoop (300 : ℤ) 2 = levelLoop 18 3 := by
    have h := levelLoop_eq_of_ge (300 : ℤ) 2
      (by rw [xp_to_next_level_two]; norm_num)
      (by rw [xp_to_next_level_two]; push_cast)
    rw [h, xp_to_next_level_two]
    norm_num
  have c3 : levelLoop (18 : ℤ) 3 = (18, 3) :=
    levelLoop_eq_of_lt 18 3 (by rw [xp_to_next_level_three]; push_cast)
  refine ⟨?_, ?_, ?_⟩
  · rw [award_xp_level_eq, e1, e2]
    have := levelLoop_level_le (s.experiencePoints + a -
      calculate_xp_to_next_level s.level - calculate_xp_to_next_level (s.level + 1))
      (s.level + 2)
    omega
  · rw [award_xp_level_eq]
    show (levelLoop ((0 : ℤ) + 400) 1).2 = 3
    rw [c1, c2, c3]
  · rw [award_xp_xp_eq]
    show (levelLoop ((0 : ℤ) + 400) 1).1 = 18
    rw [c1, c2, c3]

/-- Witness for C2: the 400-XP award from the fresh document covers the
first two thresholds (100 + 282 = 382 ≤ 400). -/
theorem award_xp_cascade_witness :
    1 ≤ defaultStats.level ∧ defaultStats.experiencePoints = 0 ∧
    ((calculate_xp_to_next_level defaultStats.level : ℤ) +
      (calculate_xp_to_next_level (defaultStats.level + 1) : ℤ) ≤ 400) ∧
    (defaultStats.level + 2 ≤ (award_xp (some defaultStats) 400).1.level ∧
      (award_xp (some defaultStats) 400).1.level = 3 ∧
      (award_xp (some defaultStats) 400).1.experiencePoints = 18) := by
  have hs : (calculate_xp_to_next_level defaultStats.level : ℤ) +
      (calculate_xp_to_next_level (defaultStats.level + 1) : ℤ) ≤ 400 := by
    show (calculate_xp_to_next_level 1 : ℤ) +
      (calculate_xp_to_next_level (1 + 1) : ℤ) ≤ 400
    rw [xp_to_next_level_one, show (1 + 1 : ℕ) = 2 from rfl, xp_to_next_level_two]
    norm_num
  exact ⟨by decide, rfl, hs,
    award_xp_cascade defaultStats (by decide) rfl 400 hs⟩

/-! ## The two XP formulas (C9) -/

/-- C9: under exact arithmetic, `calculate_xp_to_next_level level` is
`⌊100 * level ^ 1.5⌋` for every `level ≥ 1` (stated by bracketing the
real value between the result and the result plus one), and
`calculate_xp_for_earnings amount` is `⌊amount * 10⌋` for every
non-negative `amount`.  Both are pure functions of their argument by
construction. -/
theorem xp_formula_floors (level : ℕ) (hl : 1 ≤ level) (amount : ℚ)
    (ha : 0 ≤ amount) :
    ((calculate_xp_to_next_level level : ℝ) ≤ 100 * (level : ℝ) ^ (1.5 : ℝ) ∧
      100 * (level : ℝ) ^ (1.5 : ℝ) < (calculate_xp_to_next_level level : ℝ) + 1) ∧
    ((calculate_xp_for_earnings amount : ℚ) ≤ amount * 10 ∧
      amount * 10 < (calculate_xp_for_earnings amount : ℚ) + 1) := by
  have hpow : ((level : ℝ)) ^ (1.5 : ℝ) = Real.sqrt ((level : ℝ) ^ 3) := by
    have h15 : (1.5 : ℝ) = ((3 : ℕ) : ℝ) * (1 / 2 : ℝ) := by norm_num
    rw [h15, Real.rpow_mul (Nat.cast_nonneg level), Real.rpow_natCast,
      Real.sqrt_eq_rpow]
  have hsqrt : Real.sqrt ((10000 : ℝ) * (level : ℝ) ^ 3) =
      100 * Real.sqrt ((level : ℝ) ^ 3) := by
    rw [show (10000 : ℝ) = 100 ^ 2 by norm_num,
      Real.sqrt_mul (by positivity) _, Real.sqrt_sq (by norm_num : (0:ℝ) ≤ 100)]
  have hcast : ((10000 * level ^ 3 : ℕ) : ℝ) = 10000 * (level : ℝ) ^ 3 := by
    push_cast
    ring
  have h10 : (0 : ℚ) ≤ amount * 10 := by positivity
  refine ⟨⟨?_, ?_⟩, ?_, ?_⟩
  · rw [hpow, ← hsqrt, ← hcast]
    refine Real.le_sqrt_of_sq_le ?_
    have h1 := Nat.sqrt_le' (10000 * level ^ 3)
    unfold calculate_xp_to_next_level
    exact_mod_cast h1
  · rw [hpow, ← hsqrt, ← hcast]
    refine (Real.sqrt_lt' (by positivity)).mpr ?_
    have h1 := Nat.lt_succ_sqrt' (10000 * level ^ 3)
    unfold calculate_xp_to_next_level
    push_cast
    exact_mod_cast h1
  · simp only [calculate_xp_for_earnings, if_pos h10]
    exact Int.floor_le _
  · simp only [calculate_xp_for_earnings, if_pos h10]
    exact Int.lt_floor_add_one _

/-- Witness for C9 at `level = 2` and `amount = 7/2`. -/
theorem xp_formula_floors_witness :
    (1 : ℕ) ≤ 2 ∧ (0 : ℚ) ≤ 7 / 2 ∧
    (((calculate_xp_to_next_level 2 : ℝ) ≤ 100 * (2 : ℕ) ^ (1.5 : ℝ) ∧
        100 * (2 : ℕ) ^ (1.5 : ℝ) < (calculate_xp_to_next_level 2 : ℝ) + 1) ∧
      ((calculate_xp_for_earnings (7 / 2) : ℚ) ≤ 7 / 2 * 10 ∧
        (7 / 2 : ℚ) * 10 < (calculate_xp_for_earnings (7 / 2) : ℚ) + 1)) :=
  ⟨by norm_num, by norm_num,
   xp_formula_floors 2 (by norm_num) (7 / 2) (by norm_num)⟩

/-! ## Earnings lemmas (C3) -/

theorem earningsFold_spec (rates : List (String × ℚ)) (l : List LogEntry)
    (acc : ℚ × ℚ) :
    l.foldl (earningsStep rates) acc =
      (acc.1 + ((l.filter (fun x => x.verificationStatus = .pending)).map
          (logEarnings rates)).sum,
       acc.2 + ((l.filter (fun x => x.verificationStatus = .approved)).map
          (logEarnings rates)).sum) := by
  induction l generalizing acc with
  | nil => simp
  | cons x t ih =>
    rw [List.foldl_cons, ih]
    cases hx : x.verificationStatus with
    | pending =>
        simp [earningsStep, hx, List.filter_cons]
        ring
    | approved =>
        simp [earningsStep, hx, List.filter_cons]
        ring
    | rejected =>
        simp [earningsStep, hx, List.filter_cons]

theorem assocLookup_map_overwrite (m : List (String × ℚ)) (a k : String)
    (v : ℚ) (h : ¬ a = k) :
    assocLookup (m.map (fun p => if p.1 = a then (a, v) else p)) k =
      assocLookup m k := by
  induction m with
  | nil => rfl
  | cons p t ih =>
    by_cases hp : p.1 = a
    · have hpk : ¬ p.1 = k := fun he => h (hp ▸ he)
      simp only [List.map_cons, if_pos hp, assocLookup, if_neg h, if_neg hpk]
      exact ih
    · simp only [List.map_cons, if_neg hp, assocLookup]
      by_cases hk : p.1 = k
      · rw [if_pos hk, if_pos hk]
      · rw [if_neg hk, if_neg hk]
        exact ih

theorem assocLookup_dictInsert_ne (m : List (String × ℚ)) (a k : String)
    (v : ℚ) (h : ¬ a = k) :
    assocLookup (dictInsert m a v) k = assocLookup m k := by
  unfold dictInsert
  split
  · exact assocLookup_map_overwrite m a k v h
  · cases hm : assocLookup m k with
    | some w => rw [assocLookup_append_of_isSome m _ k (by rw [hm]; rfl), hm]
    | none =>
        rw [assocLookup_append_of_eq_none m _ k hm,
          assocLookup_single_of_ne a k v h]

theorem ratesFold_lookup_none (l : List Activity) (m : List (String × ℚ))
    (aid : String) (hm : assocLookup m aid = none)
    (h : aid ∉ l.map Activity.id) :
    assocLookup (l.foldl (fun m a => dictInsert m a.id a.rate) m) aid = none := by
  induction l generalizing m with
  | nil => exact hm
  | cons c t ih =>
    rw [List.map_cons, List.mem_cons] at h
    push_neg at h
    rw [List.foldl_cons]
    refine ih _ ?_ h.2
    rw [assocLookup_dictInsert_ne m c.id aid c.rate (fun he => h.1 he.symm)]
    exact hm

/-- The rate of an activity id that does not occur among the family's
activities is looked up as absent (and defaulted to 0 by the caller). -/
theorem activityRates_lookup_none (acts : List Activity) (family_id : String)
    (aid : String)
    (h : aid ∉ (acts.filter (fun a => a.familyId = family_id)).map Activity.id) :
    assocLookup (activityRates acts family_id) aid = none :=
  ratesFold_lookup_none _ [] aid rfl h

/-- A log whose per-entry earnings are 0 leaves the accumulator
unchanged, whatever its status. -/
theorem earningsStep_zero (rates : List (String × ℚ)) (acc : ℚ × ℚ)
    (l : LogEntry) (h : logEarnings rates l = 0) :
    earningsStep rates acc l = acc := by
  unfold earningsStep
  cases l.verificationStatus <;> simp [h]

/-- A rejected log leaves the accumulator unchanged. -/
theorem earningsStep_rejected (rates : List (String × ℚ)) (acc : ℚ × ℚ)
    (l : LogEntry) (h : l.verificationStatus = .rejected) :
    earningsStep rates acc l = acc := by
  unfold earningsStep
  rw [h]

/-- C3: over any stored logs and activities, the verified total is the
sum of `units * rate` over approved in-window logs of the user and
family, the pending total the same over pending logs, a rejected log
contributes to neither total, a log whose activity is absent from the
family's activity list contributes 0 (rate defaults to 0), and the
window is inclusive at both ends: a log timestamped exactly at
`start_time` or `end_time` passes the query filter while one strictly
outside either boundary does not. -/
theorem calculate_earnings_spec (logs : List LogEntry)
    (activities : List Activity) (user_id family_id : String)
    (start_time end_time : ℤ) (hse : start_time ≤ end_time)
    (lb lo lr lm : LogEntry)
    (hlb1 : lb.userId = user_id) (hlb2 : lb.familyId = family_id)
    (hlb3 : lb.timestamp = start_time ∨ lb.timestamp = end_time)
    (hlo : lo.timestamp < start_time ∨ end_time < lo.timestamp)
    (hlr : lr.verificationStatus = .rejected)
    (hlm : lm.activityId ∉
      (activities.filter (fun a => a.familyId = family_id)).map Activity.id) :
    (calculate_earnings_for_user logs activities user_id family_id
        start_time end_time).2 =
      (((logs.filter (logInQuery user_id family_id start_time end_time)).filter
          (fun x => x.verificationStatus = .approved)).map
        (logEarnings (activityRates activities family_id))).sum ∧
    (calculate_earnings_for_user logs activities user_id family_id
        start_time end_time).1 =
      (((logs.filter (logInQuery user_id family_id start_time end_time)).filter
          (fun x => x.verificationStatus = .pending)).map
        (logEarnings (activityRates activities family_id))).sum ∧
    calculate_earnings_for_user (lr :: logs) activities user_id family_id
        start_time end_time =
      calculate_earnings_for_user logs activities user_id family_id
        start_time end_time ∧
    logEarnings (activityRates activities family_id) lm = 0 ∧
    calculate_earnings_for_user (lm :: logs) activities user_id family_id
        start_time end_time =
      calculate_earnings_for_user logs activities user_id family_id
        start_time end_time ∧
    logInQuery user_id family_id start_time end_time lb = true ∧
    logInQuery user_id family_id start_time end_time lo = false := by
  have hzero : logEarnings (activityRates activities family_id) lm = 0 := by
    unfold logEarnings
    rw [activityRates_lookup_none activities family_id lm.activityId hlm]
    simp
  refine ⟨?_, ?_, ?_, hzero, ?_, ?_, ?_⟩
  · simp only [calculate_earnings_for_user]
    rw [earningsFold_spec]
    simp
  · simp only [calculate_earnings_for_user]
    rw [earningsFold_spec]
    simp
  · simp only [calculate_earnings_for_user, List.filter_cons]
    split
    · rw [List.foldl_cons, earningsStep_rejected _ _ _ hlr]
    · rfl
  · simp only [calculate_earnings_for_user, List.filter_cons]
    split
    · rw [List.foldl_cons, earningsStep_zero _ _ _ hzero]
    · rfl
  · unfold logInQuery
    rcases hlb3 with h | h <;>
      simp [hlb1, hlb2, h, hse]
  · unfold logInQuery
    rcases hlo with h | h
    · have h1 : ¬ start_time ≤ lo.timestamp := by omega
      simp [h1]
    · have h1 : ¬ lo.timestamp ≤ end_time := by omega
      simp [h1]

/-! Concrete earnings data for the C3 witness. -/

def demoUser : String := "u1"

def demoFamily : String := "f1"


def demoActivity : Activity := { id := "a1", familyId := "f1", rate := 2 }

def demoLogApproved : LogEntry :=
  { id := "l1", activityId := "a1", userId := "u1", familyId := "f1",
    units := 3, timestamp := 10, verificationStatus := .approved }

def demoLogPending : LogEntry :=
  { id := "l2", activityId := "a1", userId := "u1", familyId := "f1",
    units := 1, timestamp := 20, verificationStatus := .pending }

def demoLogRejected : LogEntry :=
  { id := "l3", activityId := "a1", userId := "u1", familyId := "f1",
    units := 5, timestamp := 30, verificationStatus := .rejected }

def demoLogOutside : LogEntry :=
  { id := "l4", activityId := "a1", userId := "u1", familyId := "f1",
    units := 7, timestamp := 200, verificationStatus := .approved }

def demoLogMissing : LogEntry :=
  { id := "l5", activityId := "zz", userId := "u1", familyId := "f1",
    units := 9, timestamp := 40, verificationStatus := .approved }

def demoLogs : List LogEntry :=
  [demoLogApproved, demoLogPending, demoLogRejected, demoLogOutside,
   demoLogMissing]

/-- Witness for C3 over the window `[10, 100]` of the concrete family. -/
theorem calculate_earnings_spec_witness :
    (10 : ℤ) ≤ 100 ∧
    demoLogApproved.userId = demoUser ∧ demoLogApproved.familyId = demoFamily ∧
    (demoLogApproved.timestamp = 10 ∨ demoLogApproved.timestamp = 100) ∧
    (demoLogOutside.timestamp < 10 ∨ (100 : ℤ) < demoLogOutside.timestamp) ∧
    demoLogRejected.verificationStatus = VerificationStatus.rejected ∧
    demoLogMissing.activityId ∉
      (([demoActivity]).filter (fun a => a.familyId = demoFamily)).map Activity.id ∧
    ((calculate_earnings_for_user demoLogs [demoActivity] demoUser demoFamily 10 100).2 =
        (((demoLogs.filter (logInQuery demoUser demoFamily 10 100)).filter
            (fun x => x.verificationStatus = .approved)).map
          (logEarnings (activityRates [demoActivity] demoFamily))).sum ∧
      (calculate_earnings_for_user demoLogs [demoActivity] demoUser demoFamily 10 100).1 =
        (((demoLogs.filter (logInQuery demoUser demoFamily 10 100)).filter
            (fun x => x.verificationStatus = .pending)).map
          (logEarnings (activityRates [demoActivity] demoFamily))).sum ∧
      calculate_earnings_for_user (demoLogRejected :: demoLogs) [demoActivity]
          demoUser demoFamily 10 100 =
        calculate_earnings_for_user demoLogs [demoActivity] demoUser demoFamily 10 100 ∧
      logEarnings (activityRates [demoActivity] demoFamily)
        demoLogMissing = 0 ∧
      calculate_earnings_for_user (demoLogMissing :: demoLogs) [demoActivity]
          demoUser demoFamily 10 100 =
        calculate_earnings_for_user demoLogs [demoActivity] demoUser demoFamily 10 100 ∧
      logInQuery demoUser demoFamily 10 100 demoLogApproved = true ∧
      logInQuery demoUser demoFamily 10 100 demoLogOutside = false) :=
  ⟨by decide, rfl, rfl, Or.inl rfl, by decide, rfl, by decide,
   calculate_earnings_spec demoLogs [demoActivity] demoUser demoFamily 10 100
     (by decide) demoLogApproved demoLogOutside demoLogRejected demoLogMissing
     rfl rfl (Or.inl rfl) (by decide) rfl (by decide)⟩

/-! ## Error isolation (C7) -/

/-- C7: when the stats store fails, `award_xp` and `update_streak`
return an error-tagged dictionary, `check_and_award_badges` returns the
empty list — none of them raises or writes — while
`calculate_earnings_for_user` re-raises the store error to its caller
instead of returning zero totals; and the triggering log-creation and
log-approval requests still complete, reporting the log. -/
theorem store_failure_isolation (st : Store) (hf : st.failing = true)
    (amount : ℤ) (now : ℤ) (log : LogEntry) (user_id family_id : String)
    (start_time end_time : ℤ) :
    award_xp_run st amount = (st, GamOutcome.error storeErrorMsg) ∧
    update_streak_run st now = (st, GamOutcome.error storeErrorMsg) ∧
    check_and_award_badges_run st now = (st, []) ∧
    calculate_earnings_run st user_id family_id start_time end_time =
      Except.error storeErrorMsg ∧
    (create_log_request st log now).2 = Except.ok log ∧
    (approve_log_request st log now).2 = Except.ok log := by
  refine ⟨?_, ?_, ?_, ?_, rfl, ?_⟩
  · simp [award_xp_run, hf]
  · simp [update_streak_run, hf]
  · simp [check_and_award_badges_run, hf]
  · simp [calculate_earnings_run, hf]
  · unfold approve_log_request
    split <;> rfl

/-- A store in the failed state, for the C7 witness. -/
def failingStore : Store :=
  { userStats := none, userBadges := none, logs := [], activities := [],
    failing := true }

/-- Witness for C7 at the failing store. -/
theorem store_failure_isolation_witness :
    failingStore.failing = true ∧
    (award_xp_run failingStore 5 =
        (failingStore, GamOutcome.error storeErrorMsg) ∧
      update_streak_run failingStore 0 =
        (failingStore, GamOutcome.error storeErrorMsg) ∧
      check_and_award_badges_run failingStore 0 = (failingStore, []) ∧
      calculate_earnings_run failingStore demoUser demoFamily 0 100 =
        Except.error storeErrorMsg ∧
      (create_log_request failingStore demoLogPending 0).2 =
        Except.ok demoLogPending ∧
      (approve_log_request failingStore demoLogPending 0).2 =
        Except.ok demoLogPending) :=
  ⟨rfl, store_failure_isolation failingStore rfl 5 0 demoLogPending
    demoUser demoFamily 0 100⟩

/-! ## Orchestration order (C8) -/

theorem check_stats_totalEarnings (s2 : UserStats) (gb : Option BadgeMap)
    (now : ℤ) :
    (check_and_award_badges (some s2) gb now).1.map UserStats.totalEarnings =
      some s2.totalEarnings := by
  rw [check_badges_getD]
  obtain ⟨n, hn⟩ := check_stats_fields s2 (gb.getD []) now
  rw [hn]
  rfl

theorem check_stats_totalExperience (s2 : UserStats) (gb : Option BadgeMap)
    (now : ℤ) :
    (check_and_award_badges (some s2) gb now).1.map UserStats.totalExperience =
      some s2.totalExperience := by
  rw [check_badges_getD]
  obtain ⟨n, hn⟩ := check_stats_fields s2 (gb.getD []) now
  rw [hn]
  rfl

/-! Intermediate stats documents of the spec §8 scenario: a fresh user
logs one activity (3 units of a $2.00/unit activity) and the log is then
approved. -/

def S_afterAward : UserStats :=
  { level := 1, experiencePoints := 5, totalExperience := 5,
    currentStreak := 0, longestStreak := 0, lastActivityDate := none,
    totalActivitiesLogged := 0, totalEarnings := 0, badgesEarned := 0 }

def S_created : UserStats :=
  { level := 1, experiencePoints := 5, totalExperience := 5,
    currentStreak := 1, longestStreak := 1, lastActivityDate := some 0,
    totalActivitiesLogged := 1, totalEarnings := 0, badgesEarned := 1 }

def created_map : BadgeMap :=
  [("first_steps", { earnedAt := 0, progress := 100 })]

def S_afterXp2 : UserStats :=
  { level := 1, experiencePoints := 65, totalExperience := 65,
    currentStreak := 1, longestStreak := 1, lastActivityDate := some 0,
    totalActivitiesLogged := 1, totalEarnings := 0, badgesEarned := 1 }

def S_afterEarn : UserStats :=
  { level := 1, experiencePoints := 65, totalExperience := 65,
    currentStreak := 1, longestStreak := 1, lastActivityDate := some 0,
    totalActivitiesLogged := 1, totalEarnings := 6, badgesEarned := 1 }

def S_approved : UserStats :=
  { level := 1, experiencePoints := 65, totalExperience := 65,
    currentStreak := 1, longestStreak := 1, lastActivityDate := some 0,
    totalActivitiesLogged := 1, totalEarnings := 6, badgesEarned := 2 }

def approved_map : BadgeMap :=
  [("first_steps", { earnedAt := 0, progress := 100 }),
   ("first_dollar", { earnedAt := 0, progress := 100 })]

/-- The First Dollar catalog entry. -/
def firstDollarBadge : Badge :=
  { id := "first_dollar", name := "First Dollar", category := "earnings",
    requirement_type := "total_earnings", requirement_value := 1,
    rarity := "common" }

theorem award_flat_five : (award_xp none 5).1 = S_afterAward := by
  have hloop : levelLoop (5 : ℤ) 1 = (5, 1) :=
    levelLoop_eq_of_lt 5 1 (by rw [xp_to_next_level_one]; norm_num)
  simp [award_xp, defaultStats, S_afterAward, hloop]

theorem xp_for_six_dollars :
    calculate_xp_for_earnings
      (demoActivity.rate * ((demoLogApproved.units : ℕ) : ℚ)) = 60 := by
  show calculate_xp_for_earnings ((2 : ℚ) * ((3 : ℕ) : ℚ)) = 60
  unfold calculate_xp_for_earnings
  norm_num

theorem award_sixty : (award_xp (some S_created) 60).1 = S_afterXp2 := by
  have hloop : levelLoop (65 : ℤ) 1 = (65, 1) :=
    levelLoop_eq_of_lt 65 1 (by rw [xp_to_next_level_one]; norm_num)
  simp [award_xp, S_created, S_afterXp2, hloop]

theorem add_six_dollars :
    add_to_total_earnings (some S_afterXp2)
      (demoActivity.rate * ((demoLogApproved.units : ℕ) : ℚ)) = S_afterEarn := by
  show add_to_total_earnings (some S_afterXp2) ((2 : ℚ) * ((3 : ℕ) : ℚ)) =
    S_afterEarn
  simp [add_to_total_earnings, S_afterXp2, S_afterEarn]
  norm_num

/-- C8: the gamification steps run in their fixed order, so the badge
check observes the counters the preceding steps wrote.  Generally, an
approval adds `rate * units` to `totalEarnings` and
`calculate_xp_for_earnings(rate * units)` to `totalExperience` before
the badge check (which touches neither).  Concretely (spec §8): a fresh
user's first log awards 5 XP, initializes the streak to 1, sets
`totalActivitiesLogged = 1`, and the badge check then unlocks exactly
First Steps; approving that 3-unit $2.00/unit log awards
`⌊6.00 × 10⌋ = 60` XP, sets `totalEarnings = 6.00`, and the re-check
then unlocks exactly First Dollar. -/
theorem orchestration_order (g : GamState) (s : UserStats)
    (activities : List Activity) (act : Activity) (log : LogEntry) (now : ℤ)
    (hg : g.stats = some s)
    (hfind : activities.find? (fun a => decide (a.id = log.activityId)) =
      some act) :
    (on_log_approval g activities log now).1.stats.map UserStats.totalEarnings =
      some (s.totalEarnings + act.rate * (log.units : ℚ)) ∧
    (on_log_approval g activities log now).1.stats.map
        UserStats.totalExperience =
      some (s.totalExperience +
        calculate_xp_for_earnings (act.rate * (log.units : ℚ))) ∧
    on_log_creation { stats := none, badges := none } 0 =
      ({ stats := some S_created, badges := some created_map },
       [firstStepsBadge]) ∧
    on_log_approval { stats := some S_created, badges := some created_map }
        [demoActivity] demoLogApproved 0 =
      ({ stats := some S_approved, badges := some approved_map },
       [firstDollarBadge]) := by
  have hunfold : (on_log_approval g activities log now).1.stats =
      (check_and_award_badges
        (some (add_to_total_earnings
          (some (award_xp (some s) (calculate_xp_for_earnings
            (act.rate * (log.units : ℚ)))).1)
          (act.rate * (log.units : ℚ)))) g.badges now).1 := by
    unfold on_log_approval
    rw [hfind, hg]
  refine ⟨?_, ?_, ?_, ?_⟩
  · rw [hunfold, check_stats_totalEarnings]
    rfl
  · rw [hunfold, check_stats_totalExperience]
    rfl
  · unfold on_log_creation
    rw [show ({ stats := none, badges := none } : GamState).stats = none
      from rfl, award_flat_five]
    decide
  · unfold on_log_approval
    rw [show (([demoActivity] : List Activity).find?
        (fun a => decide (a.id = demoLogApproved.activityId))) =
        some demoActivity from by decide]
    dsimp only
    rw [xp_for_six_dollars, award_sixty, add_six_dollars]
    decide

/-- Witness for C8 at the §8 scenario inputs. -/
theorem orchestration_order_witness :
    ({ stats := some S_created, badges := some created_map } : GamState).stats =
      some S_created ∧
    (([demoActivity] : List Activity).find?
      (fun a => decide (a.id = demoLogApproved.activityId))) =
      some demoActivity ∧
    ((on_log_approval { stats := some S_created, badges := some created_map }
        [demoActivity] demoLogApproved 0).1.stats.map UserStats.totalEarnings =
      some (S_created.totalEarnings +
        demoActivity.rate * (demoLogApproved.units : ℚ)) ∧
      (on_log_approval { stats := some S_created, badges := some created_map }
        [demoActivity] demoLogApproved 0).1.stats.map UserStats.totalExperience =
      some (S_created.totalExperience + calculate_xp_for_earnings
        (demoActivity.rate * (demoLogApproved.units : ℚ))) ∧
      on_log_creation { stats := none, badges := none } 0 =
        ({ stats := some S_created, badges := some created_map },
         [firstStepsBadge]) ∧
      on_log_approval { stats := some S_created, badges := some created_map }
          [demoActivity] demoLogApproved 0 =
        ({ stats := some S_approved, badges := some approved_map },
         [firstDollarBadge])) :=
  ⟨rfl, by decide,
   orchestration_order { stats := some S_created, badges := some created_map }
     S_created [demoActivity] demoActivity demoLogApproved 0 rfl (by decide)⟩

end ActivityTracker
